import Mathlib

/-!
Shallow embedding of src/live_transcription.py (class LiveTranscriber and main).

The program is a producer/consumer pipeline: a sounddevice audio callback
pushes mono frames into an unbounded queue.Queue, a worker thread pops frames
with a 0.1 s timeout, feeds them to a black-box streaming recognizer, and
re-renders the console display whenever the hypothesis text changes; on stop
the final transcript is persisted to a timestamped file when its stripped
text is non-empty.

Modelling conventions:
  - Audio samples are abstracted to integers (the float sample values are
    never inspected by the pipeline logic).
  - The black-box recognizer (parakeet_mlx) is modelled by per-frame outcomes:
    each submitted frame either yields an updated hypothesis string or raises
    an exception (FrameOutcome).
  - Mutable object state (self.audio_queue, self.is_recording,
    self.current_text, self.full_transcription) is a record threaded through
    the operations; ghost fields (pushed, submitted, renders, sessions,
    released, escape) record the observable history needed by the
    specification: frames enqueued, frames passed to add_audio, display
    invocations, streaming sessions acquired and released, and an exception
    unwinding the worker thread.
  - Console output is abstracted to a list of messages (formatting and
    emoji elided); file writes are a list of (name, content) records.
  - Thread interleaving is modelled by explicit schedules of events; the
    blocking queue pop with timeout is one worker iteration that either pops
    the front frame or observes queue.Empty on an empty queue.
-/

namespace LiveTranscription

/-- One frame of mono audio samples (numpy float32 array abstracted to a
list of integer sample values). -/
abbrev AudioFrame := List Int

/-- The indata buffer handed to the sounddevice callback: either a 1-D mono
buffer or a 2-D (frames x channels) buffer. In the 2-D case each row is
modelled as (channel-0 sample, remaining channel samples), so channel 0
always exists, matching sounddevice buffers with at least one channel. -/
inductive InData where
  | oneD (samples : List Int)
  | twoD (rows : List (Int × List Int))
deriving Repr, DecidableEq

/-- Line 49: audio_chunk = indata[:, 0] if indata.ndim > 1 else indata. -/
def monoChunk : InData → AudioFrame
  | InData.oneD samples => samples
  | InData.twoD rows => rows.map Prod.fst

/-- Outcome of submitting one frame to the black-box recognizer
(lines 69-75): either the updated hypothesis text read back from
transcriber.result, or an Exception message raised by the recognizer. -/
inductive FrameOutcome where
  | ok (text : String)
  | err (msg : String)
deriving Repr, DecidableEq

/-- One iteration of the worker loop, driven by the environment:
tick is one pop attempt (processing the front frame with the given
recognizer outcome, or observing queue.Empty on an empty queue);
fatal is an exception that is not a subclass of Exception (for example
KeyboardInterrupt delivered to the worker thread), which none of the
except clauses at lines 82-86 catch, so it unwinds the loop. -/
inductive WorkerInput where
  | tick (o : FrameOutcome)
  | fatal (e : String)
deriving Repr, DecidableEq

/-- An interleaving event of a Recording session: a hardware callback
invocation, or one worker-loop iteration (which pops the front frame when
one is queued and submits it with the given recognizer outcome). -/
inductive Event where
  | push (indata : InData) (status : Option String)
  | work (o : FrameOutcome)
deriving Repr, DecidableEq

/-- How the try block of start_recording (lines 127-142) ends once the
stream is open: KeyboardInterrupt (line 143) or another Exception
(line 145). -/
inductive RunEnd where
  | interrupt
  | error (e : String)
deriving Repr, DecidableEq

/-- Configuration of the streaming context acquired at lines 57-61. -/
structure SessionConfig where
  context_size : Nat × Nat
  depth : Nat
  keep_original_attention : Bool
deriving Repr, DecidableEq

/-- A file written by stop_recording (lines 160-165). -/
structure SavedFile where
  name : String
  content : String
deriving Repr, DecidableEq

/-- State of a LiveTranscriber object together with ghost history fields.
Fields audio_queue, is_recording, full_transcription and current_text are
the attributes set in __init__ (lines 35-41); the rest record observable
history: pushed = every chunk the callback enqueued, submitted = every
chunk passed to transcriber.add_audio, renders = the text of each
display_transcription invocation, log = console messages, savedFiles =
files written, sessions and released = streaming contexts acquired and
exited, threadStarted = whether the worker thread was started, escape = an
exception unwinding the worker loop. -/
structure LiveTranscriber where
  audio_queue : List AudioFrame
  is_recording : Bool
  full_transcription : List String
  current_text : String
  pushed : List AudioFrame
  submitted : List AudioFrame
  renders : List String
  log : List String
  savedFiles : List SavedFile
  sessions : List SessionConfig
  released : Nat
  threadStarted : Bool
  escape : Option String
deriving Repr, DecidableEq

/-- __init__ (lines 35-41): empty queue, not recording, empty
full_transcription list, empty current text. -/
def initState : LiveTranscriber :=
  { audio_queue := []
  , is_recording := false
  , full_transcription := []
  , current_text := ""
  , pushed := []
  , submitted := []
  , renders := []
  , log := []
  , savedFiles := []
  , sessions := []
  , released := 0
  , threadStarted := false
  , escape := none }

/-- State right after start_recording has set is_recording = True
(line 120), as seen by the worker loop and the callback. -/
def recordingInit : LiveTranscriber :=
  { initState with is_recording := true }

/-- display_transcription (lines 88-111): renders a full-screen snapshot of
self.current_text with a wall-clock timestamp. The snapshot is a pure
function of (current_text, time); the model records each invocation with
the text rendered. -/
def display_transcription (s : LiveTranscriber) : LiveTranscriber :=
  { s with renders := s.renders ++ [s.current_text] }

/-- audio_callback (lines 43-50): log a non-empty status flag, reduce the
buffer to channel 0 when it has more than one dimension, copy it (modelled
by value semantics of lists) and put it on the queue. queue.Queue.put on an
unbounded queue never blocks and always succeeds, so the model is a total
function; the callback performs no recognition work. -/
def audio_callback (indata : InData) (status : Option String)
    (s : LiveTranscriber) : LiveTranscriber :=
  let s1 := match status with
    | some st => { s with log := s.log ++ ["Audio status: " ++ st] }
    | none => s
  let audio_chunk := monoChunk indata
  { s1 with audio_queue := s1.audio_queue ++ [audio_chunk]
          , pushed := s1.pushed ++ [audio_chunk] }

/-- Body of the worker loop for one popped frame (lines 66-86): the chunk
is passed to transcriber.add_audio (recorded in submitted); on success the
new hypothesis replaces current_text and the display is re-rendered only
when the text changed (lines 78-80); a recognizer Exception is caught and
printed (lines 84-86) and nothing else changes. -/
def processFrame (o : FrameOutcome) (audio_chunk : AudioFrame)
    (s : LiveTranscriber) : LiveTranscriber :=
  let s1 := { s with submitted := s.submitted ++ [audio_chunk] }
  match o with
  | FrameOutcome.err e =>
      { s1 with log := s1.log ++ ["Transcription error: " ++ e] }
  | FrameOutcome.ok text =>
      if text = s1.current_text then s1
      else display_transcription { s1 with current_text := text }

/-- One iteration of the while loop at lines 63-86. The loop runs only
while is_recording holds and no exception has unwound the thread; a tick
pops the front frame when the queue is non-empty (queue.get with 0.1 s
timeout), or observes queue.Empty and continues; a fatal input unwinds the
loop. -/
def workerIter (i : WorkerInput) (s : LiveTranscriber) : LiveTranscriber :=
  if s.is_recording = true ∧ s.escape = none then
    match i with
    | WorkerInput.fatal e => { s with escape := some e }
    | WorkerInput.tick o =>
        match s.audio_queue with
        | [] => s
        | f :: rest => processFrame o f { s with audio_queue := rest }
  else s

/-- The worker loop run over a finite list of iteration inputs. -/
def workerLoop (s : LiveTranscriber) (inputs : List WorkerInput) :
    LiveTranscriber :=
  inputs.foldl (fun t i => workerIter i t) s

/-- The streaming context configuration at lines 57-61:
context_size=(256, 256), depth=1, keep_original_attention=False. -/
def workerSessionConfig : SessionConfig :=
  { context_size := (256, 256), depth := 1, keep_original_attention := false }

/-- Entry to transcription_worker (lines 52-61): print the banner and enter
the with block, acquiring the streaming context. -/
def acquireSession (s : LiveTranscriber) : LiveTranscriber :=
  { s with log := s.log ++ ["Starting transcription worker..."]
         , sessions := s.sessions ++ [workerSessionConfig] }

/-- Exit of the with block at line 57: the context manager is exited on
every path out of the block, normal or unwinding. -/
def releaseSession (s : LiveTranscriber) : LiveTranscriber :=
  { s with released := s.released + 1 }

/-- transcription_worker (lines 52-86): acquire the scoped streaming
context, run the loop, and release the context; the with statement runs
the release also when an exception escapes the loop (escape set). -/
def transcription_worker (inputs : List WorkerInput) (s : LiveTranscriber) :
    LiveTranscriber :=
  releaseSession (workerLoop (acquireSession s) inputs)

/-- One event of the concurrent Recording session: a callback invocation
or one worker iteration. -/
def stepEvent (s : LiveTranscriber) (e : Event) : LiveTranscriber :=
  match e with
  | Event.push indata status => audio_callback indata status s
  | Event.work o => workerIter (WorkerInput.tick o) s

/-- A finite interleaving of callback invocations and worker iterations. -/
def runSchedule (s : LiveTranscriber) (events : List Event) :
    LiveTranscriber :=
  events.foldl stepEvent s

/-- The queue.get timeout at line 66, in seconds. -/
def popTimeoutSeconds : ℚ := 1 / 10

/-- The thread join timeout at line 155, in seconds. -/
def joinTimeoutSeconds : ℚ := 2

/-- Python whitespace as removed by str.strip() with no argument:
space, tab, newline, carriage return, vertical tab, form feed. -/
def isPySpace (c : Char) : Bool :=
  c = ' ' || c = '\t' || c = '\n' || c = '\r' || c = '\x0b' || c = '\x0c'

/-- Python str.strip() with no argument: remove leading and trailing
whitespace. -/
def pyStrip (t : String) : String :=
  String.mk (((t.data.dropWhile isPySpace).reverse.dropWhile
    isPySpace).reverse)

/-- Line 160: the timestamped transcript file name. -/
def transcriptFileName (timestamp : String) : String :=
  "lecture_transcription_" ++ timestamp ++ ".txt"

/-- Lines 163-164: the header written before the transcript body. -/
def transcriptFileHeader (tsHeader : String) : String :=
  "Lecture Transcription - " ++ tsHeader ++ "\n"
    ++ String.mk (List.replicate 60 '=') ++ "\n\n"

/-- stop_recording (lines 150-169): clear is_recording, join the worker
thread with timeout 2.0 (the join result is ignored, modelled by the
unused workerExited argument, so shutdown proceeds either way), then, when
self.current_text.strip() is truthy, open the timestamped file in mode w
(a fresh file) and write header plus transcript. tsName and tsHeader are
the two datetime.now() format results of lines 159 and 163. Python
str.strip() with no argument removes whitespace, modelled by pyStrip.
In the source is_recording is cleared at line 152 before the save check;
the check does not read is_recording, so the model clears it on both
branches of the check, which yields the same state. -/
def stop_recording (tsName tsHeader : String) (workerExited : Bool)
    (s : LiveTranscriber) : LiveTranscriber :=
  if pyStrip s.current_text = "" then
    { s with is_recording := false
           , log := s.log ++ ["Session ended"] }
  else
    { s with is_recording := false
           , savedFiles := s.savedFiles ++
              [{ name := transcriptFileName tsName
               , content := transcriptFileHeader tsHeader
                   ++ s.current_text }]
           , log := s.log ++
              ["Transcription saved to: " ++ transcriptFileName tsName
              , "Session ended"] }

/-- The body of start_recording up to its finally clause
(lines 113-146): set is_recording = True (line 120), start the worker
thread (lines 123-125), then try to open the input stream. deviceOpen is
the result of the sd.InputStream constructor: on failure the Exception is
caught by the except clause at line 145 (it does not propagate to the
caller); on success the initial snapshot is rendered and the idle loop
runs until the try block ends by KeyboardInterrupt (line 143, logged) or
another Exception (line 145, logged). The worker thread itself runs
concurrently; its effects are modelled separately by
transcription_worker and runSchedule. -/
def preStop (deviceOpen : Except String Unit) (ending : RunEnd)
    (s : LiveTranscriber) : LiveTranscriber :=
  let s1 := { s with log := s.log ++ ["Initializing audio capture..."]
                   , is_recording := true
                   , threadStarted := true }
  match deviceOpen with
  | Except.error e => { s1 with log := s1.log ++ ["Error: " ++ e] }
  | Except.ok _ =>
      let s3 := { s1 with log := s1.log ++ ["Recording started!"] }
      let s4 := display_transcription s3
      match ending with
      | RunEnd.interrupt =>
          { s4 with log := s4.log ++ ["Recording stopped by user"] }
      | RunEnd.error e =>
          { s4 with log := s4.log ++ ["Error: " ++ e] }

/-- start_recording (lines 113-148): the try block (preStop) followed by
the finally clause (line 147), which runs stop_recording on every exit
path of the try block. -/
def start_recording (deviceOpen : Except String Unit) (ending : RunEnd)
    (tsName tsHeader : String) (workerExited : Bool)
    (s : LiveTranscriber) : LiveTranscriber :=
  stop_recording tsName tsHeader workerExited (preStop deviceOpen ending s)

/-- main (lines 172-195) followed by process exit. modelLoad is the result
of from_pretrained inside LiveTranscriber.__init__ (line 29): on failure
the Exception propagates out of the constructor and is caught by the
except clause at line 193, which prints a failure report and returns; on
success start_recording runs. The script ends without calling sys.exit on
every path, so the process exit code (second component) is 0 on all of
them. -/
def mainRun (modelLoad : Except String Unit)
    (deviceOpen : Except String Unit) (ending : RunEnd)
    (tsName tsHeader : String) (workerExited : Bool) :
    LiveTranscriber × Nat :=
  match modelLoad with
  | Except.error e =>
      ({ initState with log :=
          ["Failed to start transcription: " ++ e
          , "Make sure you have a microphone connected and permissions enabled."] }
      , 0)
  | Except.ok _ =>
      (start_recording deviceOpen ending tsName tsHeader workerExited
        initState, 0)

/-- Number of positions where a hypothesis sequence differs from the last
value rendered so far, starting from last. -/
def countChanges (last : String) : List String → Nat
  | [] => 0
  | h :: t => if h = last then countChanges last t else countChanges h t + 1

/-- A placeholder frame for runs that only track hypothesis text. -/
def dummyFrame : AudioFrame := [0]

/-- The worker-loop body applied to a sequence of successful recognizer
hypotheses, one frame per hypothesis. -/
def runHyps (hs : List String) (f : AudioFrame) (s : LiveTranscriber) :
    LiveTranscriber :=
  hs.foldl (fun t h => processFrame (FrameOutcome.ok h) f t) s

/-- The worker-loop body applied to a list of (frame, outcome) pairs. -/
def runFrames (pairs : List (AudioFrame × FrameOutcome))
    (s : LiveTranscriber) : LiveTranscriber :=
  pairs.foldl (fun t p => processFrame p.2 p.1 t) s

/-! Helper lemmas about the worker-loop body. -/

@[simp]
theorem processFrame_submitted (o : FrameOutcome) (f : AudioFrame)
    (s : LiveTranscriber) :
    (processFrame o f s).submitted = s.submitted ++ [f] := by
  cases o with
  | err e => rfl
  | ok t =>
      simp only [processFrame, display_transcription]
      split <;> rfl

@[simp]
theorem processFrame_audio_queue (o : FrameOutcome) (f : AudioFrame)
    (s : LiveTranscriber) :
    (processFrame o f s).audio_queue = s.audio_queue := by
  cases o with
  | err e => rfl
  | ok t =>
      simp only [processFrame, display_transcription]
      split <;> rfl

@[simp]
theorem processFrame_is_recording (o : FrameOutcome) (f : AudioFrame)
    (s : LiveTranscriber) :
    (processFrame o f s).is_recording = s.is_recording := by
  cases o with
  | err e => rfl
  | ok t =>
      simp only [processFrame, display_transcription]
      split <;> rfl

@[simp]
theorem processFrame_escape (o : FrameOutcome) (f : AudioFrame)
    (s : LiveTranscriber) :
    (processFrame o f s).escape = s.escape := by
  cases o with
  | err e => rfl
  | ok t =>
      simp only [processFrame, display_transcription]
      split <;> rfl

@[simp]
theorem processFrame_pushed (o : FrameOutcome) (f : AudioFrame)
    (s : LiveTranscriber) :
    (processFrame o f s).pushed = s.pushed := by
  cases o with
  | err e => rfl
  | ok t =>
      simp only [processFrame, display_transcription]
      split <;> rfl

@[simp]
theorem processFrame_sessions (o : FrameOutcome) (f : AudioFrame)
    (s : LiveTranscriber) :
    (processFrame o f s).sessions = s.sessions := by
  cases o with
  | err e => rfl
  | ok t =>
      simp only [processFrame, display_transcription]
      split <;> rfl

@[simp]
theorem processFrame_released (o : FrameOutcome) (f : AudioFrame)
    (s : LiveTranscriber) :
    (processFrame o f s).released = s.released := by
  cases o with
  | err e => rfl
  | ok t =>
      simp only [processFrame, display_transcription]
      split <;> rfl

@[simp]
theorem processFrame_full_transcription (o : FrameOutcome) (f : AudioFrame)
    (s : LiveTranscriber) :
    (processFrame o f s).full_transcription = s.full_transcription := by
  cases o with
  | err e => rfl
  | ok t =>
      simp only [processFrame, display_transcription]
      split <;> rfl

@[simp]
theorem processFrame_savedFiles (o : FrameOutcome) (f : AudioFrame)
    (s : LiveTranscriber) :
    (processFrame o f s).savedFiles = s.savedFiles := by
  cases o with
  | err e => rfl
  | ok t =>
      simp only [processFrame, display_transcription]
      split <;> rfl

@[simp]
theorem processFrame_threadStarted (o : FrameOutcome) (f : AudioFrame)
    (s : LiveTranscriber) :
    (processFrame o f s).threadStarted = s.threadStarted := by
  cases o with
  | err e => rfl
  | ok t =>
      simp only [processFrame, display_transcription]
      split <;> rfl

theorem processFrame_ok_renders (t : String) (f : AudioFrame)
    (s : LiveTranscriber) :
    (processFrame (FrameOutcome.ok t) f s).renders =
      if t = s.current_text then s.renders else s.renders ++ [t] := by
  simp only [processFrame, display_transcription]
  split <;> rfl

theorem processFrame_ok_current_text (t : String) (f : AudioFrame)
    (s : LiveTranscriber) :
    (processFrame (FrameOutcome.ok t) f s).current_text =
      if t = s.current_text then s.current_text else t := by
  simp only [processFrame, display_transcription]
  split <;> rfl

theorem processFrame_err_renders (e : String) (f : AudioFrame)
    (s : LiveTranscriber) :
    (processFrame (FrameOutcome.err e) f s).renders = s.renders := rfl

theorem processFrame_err_current_text (e : String) (f : AudioFrame)
    (s : LiveTranscriber) :
    (processFrame (FrameOutcome.err e) f s).current_text =
      s.current_text := rfl

theorem processFrame_err_log (e : String) (f : AudioFrame)
    (s : LiveTranscriber) :
    (processFrame (FrameOutcome.err e) f s).log =
      s.log ++ ["Transcription error: " ++ e] := rfl

/-! Helper lemmas about worker iterations and the callback. -/

theorem workerIter_tick_is_recording (o : FrameOutcome)
    (s : LiveTranscriber) :
    (workerIter (WorkerInput.tick o) s).is_recording = s.is_recording := by
  unfold workerIter
  split
  · cases hq : s.audio_queue with
    | nil => rfl
    | cons f rest => simp
  · rfl

theorem workerIter_tick_escape (o : FrameOutcome) (s : LiveTranscriber) :
    (workerIter (WorkerInput.tick o) s).escape = s.escape := by
  unfold workerIter
  split
  · cases hq : s.audio_queue with
    | nil => rfl
    | cons f rest => simp
  · rfl

theorem workerIter_sessions (i : WorkerInput) (s : LiveTranscriber) :
    (workerIter i s).sessions = s.sessions := by
  unfold workerIter
  split
  · cases i with
    | fatal e => rfl
    | tick o =>
        cases hq : s.audio_queue with
        | nil => rfl
        | cons f rest => simp
  · rfl

theorem workerIter_released (i : WorkerInput) (s : LiveTranscriber) :
    (workerIter i s).released = s.released := by
  unfold workerIter
  split
  · cases i with
    | fatal e => rfl
    | tick o =>
        cases hq : s.audio_queue with
        | nil => rfl
        | cons f rest => simp
  · rfl

theorem workerIter_full_transcription (i : WorkerInput)
    (s : LiveTranscriber) :
    (workerIter i s).full_transcription = s.full_transcription := by
  unfold workerIter
  split
  · cases i with
    | fatal e => rfl
    | tick o =>
        cases hq : s.audio_queue with
        | nil => rfl
        | cons f rest => simp
  · rfl

theorem workerLoop_sessions (inputs : List WorkerInput)
    (s : LiveTranscriber) :
    (workerLoop s inputs).sessions = s.sessions := by
  induction inputs generalizing s with
  | nil => rfl
  | cons i rest ih =>
      show (workerLoop (workerIter i s) rest).sessions = s.sessions
      rw [ih, workerIter_sessions]

theorem workerLoop_released (inputs : List WorkerInput)
    (s : LiveTranscriber) :
    (workerLoop s inputs).released = s.released := by
  induction inputs generalizing s with
  | nil => rfl
  | cons i rest ih =>
      show (workerLoop (workerIter i s) rest).released = s.released
      rw [ih, workerIter_released]

theorem workerLoop_full_transcription (inputs : List WorkerInput)
    (s : LiveTranscriber) :
    (workerLoop s inputs).full_transcription = s.full_transcription := by
  induction inputs generalizing s with
  | nil => rfl
  | cons i rest ih =>
      show (workerLoop (workerIter i s) rest).full_transcription
        = s.full_transcription
      rw [ih, workerIter_full_transcription]

theorem workerLoop_not_recording (inputs : List WorkerInput)
    (s : LiveTranscriber) (h : s.is_recording = false) :
    workerLoop s inputs = s := by
  induction inputs with
  | nil => rfl
  | cons i rest ih =>
      show workerLoop (workerIter i s) rest = s
      have hi : workerIter i s = s := by
        unfold workerIter
        rw [if_neg]
        intro hc
        rw [h] at hc
        exact Bool.false_ne_true hc.1
      rw [hi, ih]

theorem audio_callback_queue (indata : InData) (status : Option String)
    (s : LiveTranscriber) :
    (audio_callback indata status s).audio_queue
      = s.audio_queue ++ [monoChunk indata] := by
  cases status <;> rfl

theorem audio_callback_pushed (indata : InData) (status : Option String)
    (s : LiveTranscriber) :
    (audio_callback indata status s).pushed
      = s.pushed ++ [monoChunk indata] := by
  cases status <;> rfl

theorem audio_callback_submitted (indata : InData) (status : Option String)
    (s : LiveTranscriber) :
    (audio_callback indata status s).submitted = s.submitted := by
  cases status <;> rfl

theorem audio_callback_is_recording (indata : InData)
    (status : Option String) (s : LiveTranscriber) :
    (audio_callback indata status s).is_recording = s.is_recording := by
  cases status <;> rfl

theorem audio_callback_escape (indata : InData) (status : Option String)
    (s : LiveTranscriber) :
    (audio_callback indata status s).escape = s.escape := by
  cases status <;> rfl

theorem audio_callback_full_transcription (indata : InData)
    (status : Option String) (s : LiveTranscriber) :
    (audio_callback indata status s).full_transcription
      = s.full_transcription := by
  cases status <;> rfl

/-! Helper lemmas about interleaved schedules. -/

theorem runSchedule_nil (s : LiveTranscriber) : runSchedule s [] = s := rfl

theorem runSchedule_cons (s : LiveTranscriber) (e : Event)
    (events : List Event) :
    runSchedule s (e :: events) = runSchedule (stepEvent s e) events := rfl

theorem stepEvent_is_recording (s : LiveTranscriber) (e : Event) :
    (stepEvent s e).is_recording = s.is_recording := by
  cases e with
  | push indata status => exact audio_callback_is_recording indata status s
  | work o => exact workerIter_tick_is_recording o s

theorem stepEvent_escape (s : LiveTranscriber) (e : Event) :
    (stepEvent s e).escape = s.escape := by
  cases e with
  | push indata status => exact audio_callback_escape indata status s
  | work o => exact workerIter_tick_escape o s

theorem stepEvent_full_transcription (s : LiveTranscriber) (e : Event) :
    (stepEvent s e).full_transcription = s.full_transcription := by
  cases e with
  | push indata status =>
      exact audio_callback_full_transcription indata status s
  | work o => exact workerIter_full_transcription (WorkerInput.tick o) s

theorem runSchedule_is_recording (events : List Event)
    (s : LiveTranscriber) :
    (runSchedule s events).is_recording = s.is_recording := by
  induction events generalizing s with
  | nil => rfl
  | cons e rest ih =>
      rw [runSchedule_cons, ih, stepEvent_is_recording]

theorem runSchedule_escape (events : List Event) (s : LiveTranscriber) :
    (runSchedule s events).escape = s.escape := by
  induction events generalizing s with
  | nil => rfl
  | cons e rest ih => rw [runSchedule_cons, ih, stepEvent_escape]

theorem runSchedule_full_transcription (events : List Event)
    (s : LiveTranscriber) :
    (runSchedule s events).full_transcription = s.full_transcription := by
  induction events generalizing s with
  | nil => rfl
  | cons e rest ih =>
      rw [runSchedule_cons, ih, stepEvent_full_transcription]

/-- The worker loop has no effect once the session left Recording or the
thread unwound. -/
theorem workerIter_stopped (i : WorkerInput) (s : LiveTranscriber)
    (h : ¬ (s.is_recording = true ∧ s.escape = none)) :
    workerIter i s = s := by
  unfold workerIter
  rw [if_neg h]

/-- A pop attempt on an empty queue observes queue.Empty and continues. -/
theorem workerIter_tick_empty (o : FrameOutcome) (s : LiveTranscriber)
    (hq : s.audio_queue = []) (hrec : s.is_recording = true)
    (hesc : s.escape = none) :
    workerIter (WorkerInput.tick o) s = s := by
  unfold workerIter
  rw [if_pos ⟨hrec, hesc⟩]
  show (match s.audio_queue with
        | [] => s
        | f :: rest => processFrame o f { s with audio_queue := rest }) = s
  rw [hq]

/-- A pop attempt on a non-empty queue removes the oldest frame and
processes it. -/
theorem workerIter_tick_pop (o : FrameOutcome) (s : LiveTranscriber)
    (f : AudioFrame) (rest : List AudioFrame)
    (hq : s.audio_queue = f :: rest) (hrec : s.is_recording = true)
    (hesc : s.escape = none) :
    workerIter (WorkerInput.tick o) s
      = processFrame o f { s with audio_queue := rest } := by
  unfold workerIter
  rw [if_pos ⟨hrec, hesc⟩]
  show (match s.audio_queue with
        | [] => s
        | f :: rest => processFrame o f { s with audio_queue := rest })
      = processFrame o f { s with audio_queue := rest }
  rw [hq]

/-- The FIFO hand-off invariant: the frames enqueued so far are exactly
the frames already submitted followed by the frames still queued. -/
theorem stepEvent_inv (s : LiveTranscriber) (e : Event)
    (h : s.pushed = s.submitted ++ s.audio_queue) :
    (stepEvent s e).pushed
      = (stepEvent s e).submitted ++ (stepEvent s e).audio_queue := by
  cases e with
  | push indata status =>
      simp only [stepEvent]
      rw [audio_callback_pushed, audio_callback_submitted,
        audio_callback_queue, h, List.append_assoc]
  | work o =>
      simp only [stepEvent]
      by_cases hg : s.is_recording = true ∧ s.escape = none
      · cases hq : s.audio_queue with
        | nil =>
            rw [workerIter_tick_empty o s hq hg.1 hg.2]
            exact h
        | cons f rest =>
            rw [workerIter_tick_pop o s f rest hq hg.1 hg.2]
            rw [hq] at h
            simp [h]
      · rw [workerIter_stopped _ s hg]
        exact h

theorem runSchedule_inv (events : List Event) (s : LiveTranscriber)
    (h : s.pushed = s.submitted ++ s.audio_queue) :
    (runSchedule s events).pushed
      = (runSchedule s events).submitted
        ++ (runSchedule s events).audio_queue := by
  induction events generalizing s with
  | nil => exact h
  | cons e rest ih => exact ih (stepEvent s e) (stepEvent_inv s e h)

/-- Running one worker iteration per queued frame drains the queue into
the submitted sequence, in order. -/
theorem runSchedule_drain (q : List AudioFrame) (s : LiveTranscriber)
    (hq : s.audio_queue = q) (hrec : s.is_recording = true)
    (hesc : s.escape = none) :
    (runSchedule s (List.replicate q.length
        (Event.work (FrameOutcome.ok "")))).submitted
      = s.submitted ++ q := by
  induction q generalizing s with
  | nil => simp [runSchedule]
  | cons f rest ih =>
      have hstep : stepEvent s (Event.work (FrameOutcome.ok ""))
          = processFrame (FrameOutcome.ok "") f
              { s with audio_queue := rest } := by
        simp only [stepEvent]
        exact workerIter_tick_pop (FrameOutcome.ok "") s f rest hq hrec hesc
      rw [List.length_cons, List.replicate_succ, runSchedule_cons, hstep]
      rw [ih (processFrame (FrameOutcome.ok "") f
            { s with audio_queue := rest }) (by simp) (by simp [hrec])
            (by simp [hesc])]
      simp

theorem runHyps_cons (h : String) (t : List String) (f : AudioFrame)
    (s : LiveTranscriber) :
    runHyps (h :: t) f s
      = runHyps t f (processFrame (FrameOutcome.ok h) f s) := rfl

/-- Rendering count: the worker re-renders exactly at the hypothesis
values that differ from the last rendered text. -/
theorem runHyps_renders_length (hs : List String) (f : AudioFrame)
    (s : LiveTranscriber) :
    ((runHyps hs f s).renders).length
      = s.renders.length + countChanges s.current_text hs := by
  induction hs generalizing s with
  | nil => simp [runHyps, countChanges]
  | cons h t ih =>
      rw [runHyps_cons, ih, processFrame_ok_renders,
        processFrame_ok_current_text]
      by_cases hc : h = s.current_text
      · simp [hc, countChanges]
      · simp [hc, countChanges]
        omega

theorem runFrames_cons (p : AudioFrame × FrameOutcome)
    (ps : List (AudioFrame × FrameOutcome)) (s : LiveTranscriber) :
    runFrames (p :: ps) s = runFrames ps (processFrame p.2 p.1 s) := rfl

theorem runFrames_submitted (pairs : List (AudioFrame × FrameOutcome))
    (s : LiveTranscriber) :
    (runFrames pairs s).submitted = s.submitted ++ pairs.map Prod.fst := by
  induction pairs generalizing s with
  | nil => simp [runFrames]
  | cons p ps ih =>
      rw [runFrames_cons, ih]
      simp

theorem runFrames_is_recording (pairs : List (AudioFrame × FrameOutcome))
    (s : LiveTranscriber) :
    (runFrames pairs s).is_recording = s.is_recording := by
  induction pairs generalizing s with
  | nil => rfl
  | cons p ps ih =>
      rw [runFrames_cons, ih, processFrame_is_recording]

/-! Helper lemmas about shutdown and the session controller. -/

theorem stop_recording_savedFiles (tsName tsHeader : String)
    (workerExited : Bool) (s : LiveTranscriber) :
    (stop_recording tsName tsHeader workerExited s).savedFiles
      = if pyStrip s.current_text = "" then s.savedFiles
        else s.savedFiles
          ++ [{ name := transcriptFileName tsName
              , content := transcriptFileHeader tsHeader
                  ++ s.current_text }] := by
  simp only [stop_recording]
  split <;> rfl

theorem stop_recording_is_recording (tsName tsHeader : String)
    (workerExited : Bool) (s : LiveTranscriber) :
    (stop_recording tsName tsHeader workerExited s).is_recording
      = false := by
  simp only [stop_recording]
  split <;> rfl

theorem stop_recording_current_text (tsName tsHeader : String)
    (workerExited : Bool) (s : LiveTranscriber) :
    (stop_recording tsName tsHeader workerExited s).current_text
      = s.current_text := by
  simp only [stop_recording]
  split <;> rfl

theorem stop_recording_full_transcription (tsName tsHeader : String)
    (workerExited : Bool) (s : LiveTranscriber) :
    (stop_recording tsName tsHeader workerExited s).full_transcription
      = s.full_transcription := by
  simp only [stop_recording]
  split <;> rfl

theorem stop_recording_threadStarted (tsName tsHeader : String)
    (workerExited : Bool) (s : LiveTranscriber) :
    (stop_recording tsName tsHeader workerExited s).threadStarted
      = s.threadStarted := by
  simp only [stop_recording]
  split <;> rfl

theorem preStop_current_text (dev : Except String Unit) (ending : RunEnd)
    (s : LiveTranscriber) :
    (preStop dev ending s).current_text = s.current_text := by
  cases dev <;> cases ending <;> rfl

theorem preStop_savedFiles (dev : Except String Unit) (ending : RunEnd)
    (s : LiveTranscriber) :
    (preStop dev ending s).savedFiles = s.savedFiles := by
  cases dev <;> cases ending <;> rfl

theorem preStop_full_transcription (dev : Except String Unit)
    (ending : RunEnd) (s : LiveTranscriber) :
    (preStop dev ending s).full_transcription = s.full_transcription := by
  cases dev <;> cases ending <;> rfl

theorem preStop_threadStarted (dev : Except String Unit) (ending : RunEnd)
    (s : LiveTranscriber) :
    (preStop dev ending s).threadStarted = true := by
  cases dev <;> cases ending <;> rfl

/-! Claim theorems. -/

/-- C1: Every audio frame enqueued by the capture callback during a
Recording session is handed to the recognizer in strict FIFO order,
exactly once, with none dropped or reordered, even under back-pressure.
After an arbitrary interleaving of callback invocations and worker
iterations starting from the Recording state, the sequence of enqueued
frames is exactly the sequence of frames already submitted to the
recognizer followed by the frames still queued (so the submitted sequence
is always an in-order duplicate-free initial segment of the pushed sequence, and
the queue grows without dropping); moreover, one further worker iteration
per still-queued frame submits every pushed frame, exactly once, in
order. -/
theorem frames_fifo_exactly_once (events : List Event) :
    (runSchedule recordingInit events).pushed
      = (runSchedule recordingInit events).submitted
        ++ (runSchedule recordingInit events).audio_queue
    ∧ (runSchedule (runSchedule recordingInit events)
        (List.replicate (runSchedule recordingInit events).audio_queue.length
          (Event.work (FrameOutcome.ok "")))).submitted
      = (runSchedule recordingInit events).pushed := by
  have hinv := runSchedule_inv events recordingInit rfl
  refine ⟨hinv, ?_⟩
  have hrec : (runSchedule recordingInit events).is_recording = true := by
    rw [runSchedule_is_recording]
    rfl
  have hesc : (runSchedule recordingInit events).escape = none := by
    rw [runSchedule_escape]
    rfl
  rw [runSchedule_drain ((runSchedule recordingInit events).audio_queue)
    (runSchedule recordingInit events) rfl hrec hesc]
  exact hinv.symm

/-- C2: The display renderer runs after processing a frame exactly when
the new hypothesis differs from the previously rendered text, and over any
hypothesis sequence the number of renders equals the number of positions
where the value changes from the last rendered value; in particular the
sequence "", "hi", "hi", "hi there", "hi there" starting from the empty
rendered text produces exactly 2 renders. -/
theorem render_only_on_change :
    (∀ (t : String) (f : AudioFrame) (s : LiveTranscriber),
        (processFrame (FrameOutcome.ok t) f s).renders
          = if t = s.current_text then s.renders else s.renders ++ [t])
    ∧ (∀ (hs : List String) (f : AudioFrame) (s : LiveTranscriber),
        ((runHyps hs f s).renders).length
          = s.renders.length + countChanges s.current_text hs)
    ∧ ((runHyps ["", "hi", "hi", "hi there", "hi there"] dummyFrame
          recordingInit).renders).length = 2 := by
  refine ⟨processFrame_ok_renders, runHyps_renders_length, ?_⟩
  rfl

/-- C3: A recognizer error on a single frame is caught and logged inside
the worker loop; the state stays Recording, the rendered text and render
history are untouched (no render is triggered), the loop is not unwound
(escape unchanged), and subsequent frames are all still submitted in
order. -/
theorem per_frame_error_recovery :
    (∀ (e : String) (f : AudioFrame) (s : LiveTranscriber),
        (processFrame (FrameOutcome.err e) f s).log
            = s.log ++ ["Transcription error: " ++ e]
          ∧ (processFrame (FrameOutcome.err e) f s).is_recording
              = s.is_recording
          ∧ (processFrame (FrameOutcome.err e) f s).renders = s.renders
          ∧ (processFrame (FrameOutcome.err e) f s).current_text
              = s.current_text
          ∧ (processFrame (FrameOutcome.err e) f s).escape = s.escape)
    ∧ (∀ (pairs : List (AudioFrame × FrameOutcome)) (s : LiveTranscriber),
        (runFrames pairs s).submitted = s.submitted ++ pairs.map Prod.fst
          ∧ (runFrames pairs s).is_recording = s.is_recording)
    ∧ (∀ (o : FrameOutcome) (s : LiveTranscriber),
        (workerIter (WorkerInput.tick o) s).escape = s.escape
          ∧ (workerIter (WorkerInput.tick o) s).is_recording
              = s.is_recording) := by
  refine ⟨fun e f s => ⟨rfl, rfl, rfl, rfl, rfl⟩, ?_, ?_⟩
  · exact fun pairs s =>
      ⟨runFrames_submitted pairs s, runFrames_is_recording pairs s⟩
  · exact fun o s =>
      ⟨workerIter_tick_escape o s, workerIter_tick_is_recording o s⟩

/-- C8: On every delivered buffer the callback enqueues (a copy of) the
buffer reduced to mono — channel 0 when the buffer has more than one
dimension, the buffer itself otherwise; the enqueue is modelled as a total
function (queue.Queue.put on an unbounded queue never blocks and always
succeeds), and the callback performs no recognition work: submissions,
hypothesis text, renders and session state are untouched. -/
theorem audio_callback_mono_enqueue (indata : InData)
    (status : Option String) (s : LiveTranscriber) :
    (audio_callback indata status s).audio_queue
        = s.audio_queue ++ [monoChunk indata]
    ∧ (audio_callback indata status s).pushed
        = s.pushed ++ [monoChunk indata]
    ∧ (∀ rows, monoChunk (InData.twoD rows) = rows.map Prod.fst)
    ∧ (∀ samples, monoChunk (InData.oneD samples) = samples)
    ∧ (audio_callback indata status s).submitted = s.submitted
    ∧ (audio_callback indata status s).current_text = s.current_text
    ∧ (audio_callback indata status s).renders = s.renders
    ∧ (audio_callback indata status s).sessions = s.sessions
    ∧ (audio_callback indata status s).is_recording = s.is_recording
    ∧ (audio_callback indata status s).savedFiles = s.savedFiles := by
  cases status <;>
    exact ⟨rfl, rfl, fun rows => rfl, fun samples => rfl, rfl, rfl, rfl,
      rfl, rfl, rfl⟩

/-- C4 counterexample: the claim says a transcript file is created if and
only if the final transcript is non-empty, but stop_recording tests
self.current_text.strip(): for the non-empty, whitespace-only transcript
consisting of a single space, no file is created. -/
theorem save_iff_nonempty_counterexample :
    ({ recordingInit with current_text := " " } :
        LiveTranscriber).current_text ≠ ""
    ∧ (stop_recording "20250101_120000" "2025-01-01 12:00:00" true
        { recordingInit with current_text := " " }).savedFiles = [] := by
  constructor
  · decide
  · rfl

/-- C4 amended: on the transition to Stopped, stop_recording creates a
transcript file if and only if the final transcript contains a
non-whitespace character (Python str.strip() truthiness); when created,
exactly one fresh file is written, named
lecture_transcription_(timestamp).txt, whose content is the timestamped
header followed by exactly the full final transcript as its body; when
the stripped transcript is empty, no file is created and the transcript
and full_transcription list are untouched. -/
theorem save_transcript_amended (tsName tsHeader : String)
    (workerExited : Bool) (s : LiveTranscriber) :
    (stop_recording tsName tsHeader workerExited s).savedFiles
      = (if pyStrip s.current_text = "" then s.savedFiles
         else s.savedFiles
           ++ [{ name := transcriptFileName tsName
               , content := transcriptFileHeader tsHeader
                   ++ s.current_text }])
    ∧ transcriptFileName tsName
        = "lecture_transcription_" ++ tsName ++ ".txt"
    ∧ (stop_recording tsName tsHeader workerExited s).current_text
        = s.current_text
    ∧ (stop_recording tsName tsHeader workerExited s).full_transcription
        = s.full_transcription :=
  ⟨stop_recording_savedFiles tsName tsHeader workerExited s, rfl
  , stop_recording_current_text tsName tsHeader workerExited s
  , stop_recording_full_transcription tsName tsHeader workerExited s⟩

/-- C5 counterexample: the claim says the process exits with a non-zero
exit code when the recognizer model cannot be acquired, but main catches
the setup exception, prints a failure report and returns normally, so the
script ends with exit code 0. -/
theorem setup_failure_exit_code_counterexample :
    (mainRun (Except.error "model not found") (Except.ok ())
        RunEnd.interrupt "20250101_120000" "2025-01-01 12:00:00"
        true).2 = 0 := rfl

/-- C5 amended: if the recognizer model cannot be acquired, the failure
propagates out of the constructor before any session is created (no
worker thread started, never Recording, no streaming session acquired, no
retry) and main catches it and reports the failure, after which the
process exits with code 0, the same code as on normal interrupt-driven
stop; if the audio device cannot be opened, start_recording catches the
error itself (it does not propagate out of start), runs the shutdown
sequence, and the process likewise exits with code 0. -/
theorem setup_failure_exit_amended (e d : String)
    (dev : Except String Unit) (ending : RunEnd)
    (tsName tsHeader : String) (workerExited : Bool) :
    (mainRun (Except.error e) dev ending tsName tsHeader workerExited).2
        = 0
    ∧ (mainRun (Except.error e) dev ending tsName tsHeader
        workerExited).1.threadStarted = false
    ∧ (mainRun (Except.error e) dev ending tsName tsHeader
        workerExited).1.is_recording = false
    ∧ (mainRun (Except.error e) dev ending tsName tsHeader
        workerExited).1.sessions = []
    ∧ (mainRun (Except.error e) dev ending tsName tsHeader
        workerExited).1.log
        = ["Failed to start transcription: " ++ e
          , "Make sure you have a microphone connected and permissions enabled."]
    ∧ (mainRun (Except.ok ()) (Except.error d) ending tsName tsHeader
        workerExited).2 = 0
    ∧ (mainRun (Except.ok ()) (Except.error d) ending tsName tsHeader
        workerExited).1.is_recording = false
    ∧ (mainRun (Except.ok ()) (Except.error d) ending tsName tsHeader
        workerExited).1.threadStarted = true
    ∧ (mainRun (Except.ok ()) (Except.ok ()) RunEnd.interrupt tsName
        tsHeader workerExited).2 = 0 := by
  refine ⟨rfl, rfl, rfl, rfl, rfl, rfl, ?_, ?_, rfl⟩
  · exact stop_recording_is_recording tsName tsHeader workerExited
      (preStop (Except.error d) ending initState)
  · show (stop_recording tsName tsHeader workerExited
      (preStop (Except.error d) ending initState)).threadStarted = true
    rw [stop_recording_threadStarted, preStop_threadStarted]

/-- C6: once is_recording is false the worker loop performs no further
pop attempt and exits at the next while-condition check (each pop attempt
is bounded by the 0.1 s queue.get timeout, so termination takes at most
the one pop-timeout interval already in flight); stop_recording joins the
worker with the bounded 2.0 s timeout and produces the same shutdown and
persistence effects whether or not the worker has fully exited. -/
theorem worker_stop_bounded :
    (∀ (s : LiveTranscriber) (inputs : List WorkerInput),
        workerLoop { s with is_recording := false } inputs
          = { s with is_recording := false })
    ∧ (∀ (tsName tsHeader : String) (s : LiveTranscriber),
        stop_recording tsName tsHeader true s
          = stop_recording tsName tsHeader false s)
    ∧ (∀ (tsName tsHeader : String) (workerExited : Bool)
        (s : LiveTranscriber),
        (stop_recording tsName tsHeader workerExited s).is_recording
          = false)
    ∧ popTimeoutSeconds = 1 / 10
    ∧ joinTimeoutSeconds = 2 := by
  refine ⟨?_, ?_, ?_, rfl, rfl⟩
  · intro s inputs
    exact workerLoop_not_recording inputs _ rfl
  · intro tsName tsHeader s
    rfl
  · intro tsName tsHeader we s
    simp only [stop_recording]
    split <;> rfl

/-- C7: the worker acquires exactly one scoped streaming session at
worker start, configured with context window (256, 256), decode depth 1
and local (non-original) attention, and releases exactly one session on
every exit path of the worker, including runs in which an exception
unwinds the loop (final conjuncts: a fatal exception input leaves the
loop unwound and the session is still released). -/
theorem session_scoped_acquire_release :
    (∀ (inputs : List WorkerInput) (s : LiveTranscriber),
        (transcription_worker inputs s).sessions
            = s.sessions ++ [workerSessionConfig]
          ∧ (transcription_worker inputs s).released = s.released + 1)
    ∧ workerSessionConfig.context_size = (256, 256)
    ∧ workerSessionConfig.depth = 1
    ∧ workerSessionConfig.keep_original_attention = false
    ∧ (transcription_worker [WorkerInput.fatal "boom"]
        recordingInit).escape = some "boom"
    ∧ (transcription_worker [WorkerInput.fatal "boom"]
        recordingInit).released = recordingInit.released + 1 := by
  refine ⟨?_, rfl, rfl, rfl, rfl, rfl⟩
  intro inputs s
  constructor
  · show (workerLoop (acquireSession s) inputs).sessions = _
    rw [workerLoop_sessions]
    rfl
  · show (workerLoop (acquireSession s) inputs).released + 1 = _
    rw [workerLoop_released]
    rfl

/-- C9 counterexample: the claim says the shutdown sequence persists the
transcript if it is non-empty, but for the non-empty, whitespace-only
transcript consisting of a single tab, an interrupt-driven exit of
start_recording persists nothing. -/
theorem shutdown_persist_counterexample :
    ({ recordingInit with current_text := "\t" } :
        LiveTranscriber).current_text ≠ ""
    ∧ (start_recording (Except.ok ()) RunEnd.interrupt "20250101_120000"
        "2025-01-01 12:00:00" true
        { recordingInit with current_text := "\t" }).savedFiles = [] := by
  constructor
  · decide
  · rfl

/-- C9 amended: an interrupt-driven stop and an error-driven stop execute
the same shutdown sequence — the Recording flag is cleared, the worker is
joined with the bounded timeout (the result is ignored: the outcome is
identical whether or not the worker exited), and the transcript is
persisted exactly when it contains a non-whitespace character — and this
shutdown/persist sequence runs on every exit path of start_recording,
interrupt or error alike. -/
theorem shutdown_sequence_amended (dev : Except String Unit) (e : String)
    (tsName tsHeader : String) (workerExited : Bool)
    (s : LiveTranscriber) :
    (start_recording dev RunEnd.interrupt tsName tsHeader workerExited
        s).is_recording = false
    ∧ (start_recording dev (RunEnd.error e) tsName tsHeader workerExited
        s).is_recording = false
    ∧ (start_recording dev RunEnd.interrupt tsName tsHeader workerExited
        s).savedFiles
      = (start_recording dev (RunEnd.error e) tsName tsHeader workerExited
          s).savedFiles
    ∧ (start_recording dev RunEnd.interrupt tsName tsHeader workerExited
        s).savedFiles
      = (if pyStrip s.current_text = "" then s.savedFiles
         else s.savedFiles
           ++ [{ name := transcriptFileName tsName
               , content := transcriptFileHeader tsHeader
                   ++ s.current_text }])
    ∧ start_recording dev RunEnd.interrupt tsName tsHeader true s
        = start_recording dev RunEnd.interrupt tsName tsHeader false s := by
  refine ⟨stop_recording_is_recording tsName tsHeader workerExited _
    , stop_recording_is_recording tsName tsHeader workerExited _
    , ?_, ?_, rfl⟩
  · show (stop_recording tsName tsHeader workerExited
        (preStop dev RunEnd.interrupt s)).savedFiles
      = (stop_recording tsName tsHeader workerExited
        (preStop dev (RunEnd.error e) s)).savedFiles
    rw [stop_recording_savedFiles, stop_recording_savedFiles,
      preStop_current_text, preStop_current_text, preStop_savedFiles,
      preStop_savedFiles]
  · show (stop_recording tsName tsHeader workerExited
        (preStop dev RunEnd.interrupt s)).savedFiles = _
    rw [stop_recording_savedFiles, preStop_current_text,
      preStop_savedFiles]

/-- C10: the full_transcription list starts empty in __init__ and
no operation of the program ever modifies it — not the callback, not the
worker-loop body, not a worker iteration, not the whole worker, not the
display, not stop_recording, not start_recording, not main, and not any
interleaved Recording schedule, so it stays empty for the whole process
lifetime — while the persisted artifact is derived solely from
current_text. -/
theorem full_transcription_inert :
    initState.full_transcription = []
    ∧ (∀ (indata : InData) (status : Option String) (s : LiveTranscriber),
        (audio_callback indata status s).full_transcription
          = s.full_transcription)
    ∧ (∀ (o : FrameOutcome) (f : AudioFrame) (s : LiveTranscriber),
        (processFrame o f s).full_transcription = s.full_transcription)
    ∧ (∀ (i : WorkerInput) (s : LiveTranscriber),
        (workerIter i s).full_transcription = s.full_transcription)
    ∧ (∀ (inputs : List WorkerInput) (s : LiveTranscriber),
        (transcription_worker inputs s).full_transcription
          = s.full_transcription)
    ∧ (∀ s : LiveTranscriber,
        (display_transcription s).full_transcription
          = s.full_transcription)
    ∧ (∀ (tsName tsHeader : String) (workerExited : Bool)
        (s : LiveTranscriber),
        (stop_recording tsName tsHeader workerExited s).full_transcription
          = s.full_transcription)
    ∧ (∀ (dev : Except String Unit) (ending : RunEnd)
        (tsName tsHeader : String) (workerExited : Bool)
        (s : LiveTranscriber),
        (start_recording dev ending tsName tsHeader workerExited
          s).full_transcription = s.full_transcription)
    ∧ (∀ (ml dev : Except String Unit) (ending : RunEnd)
        (tsName tsHeader : String) (workerExited : Bool),
        (mainRun ml dev ending tsName tsHeader
          workerExited).1.full_transcription = [])
    ∧ (∀ events : List Event,
        (runSchedule recordingInit events).full_transcription = [])
    ∧ (∀ (tsName tsHeader : String) (workerExited : Bool)
        (s : LiveTranscriber),
        (stop_recording tsName tsHeader workerExited s).savedFiles
          = (if pyStrip s.current_text = "" then s.savedFiles
             else s.savedFiles
               ++ [{ name := transcriptFileName tsName
                   , content := transcriptFileHeader tsHeader
                       ++ s.current_text }])) := by
  refine ⟨rfl, audio_callback_full_transcription,
    processFrame_full_transcription, workerIter_full_transcription,
    ?_, fun s => rfl, stop_recording_full_transcription, ?_, ?_, ?_,
    stop_recording_savedFiles⟩
  · intro inputs s
    show (workerLoop (acquireSession s) inputs).full_transcription
      = s.full_transcription
    rw [workerLoop_full_transcription]
    rfl
  · intro dev ending tsName tsHeader we s
    show (stop_recording tsName tsHeader we
      (preStop dev ending s)).full_transcription = s.full_transcription
    rw [stop_recording_full_transcription, preStop_full_transcription]
  · intro ml dev ending tsName tsHeader we
    cases ml with
    | error me => rfl
    | ok u =>
        show (stop_recording tsName tsHeader we
          (preStop dev ending initState)).full_transcription = []
        rw [stop_recording_full_transcription, preStop_full_transcription]
        rfl
  · intro events
    rw [runSchedule_full_transcription]
    rfl

end LiveTranscription
